import Mathlib

/-!
Shallow embedding of the screening pipeline of `src/main.py`.

The program screens crypto symbols for bullish multi-timeframe alignment:

* `fetch_market_data` (main.py lines 10-97): obtains raw OHLCV candles from the
  exchange, validates sufficiency (`len(ohlcv) < limit`), freshness
  (`current_time - last_candle_time > max_delay[timeframe]`), numeric sanity
  (`pd.to_numeric` + `isnull`), enriches the frame with MACD(12,26,9),
  RSI(7) and timeframe-dependent simple moving averages, then drops rows with
  any missing value (`dropna`), re-checks the length and returns
  `df.tail(limit)`.  Every failure path `return None` (with a printed message
  identifying the failure kind); we model the result as `Except FetchErr`
  whose error constructors name those message kinds.
* `check_conditions` (lines 99-144): evaluates the timeframe-specific boolean
  predicate on the final row; all exceptions are caught and yield `False`,
  and Python comparisons against NaN are `False`, which the embedding renders
  by comparisons over `Option ℚ` that are `false` when an operand is `none`.
* `filter_by_conditions` (lines 146-166): per timeframe, fetches and (when the
  fetch did not fail) records the verdict in `results`, counts satisfied
  timeframes and returns `satisfied_timeframes >= 3`.

Machine reals are modelled by `ℚ` (exchange prices are decimal); a pandas NaN
cell is `none`.  The exchange, an external collaborator, is abstracted as the
input `ohlcv` list (for one call) or as a per-timeframe oracle (for the
aggregator); the pandas-ta indicator functions, also an external library, are
abstracted as an `IndicatorLib` record of column functions, with a concrete
`defaultLib` rendering MACD(12,26,9), Wilder RSI(7) and rolling means.
-/

set_option maxRecDepth 100000

namespace CryptoScreen

/-- Raw candle as returned by `exchange.fetch_ohlcv`: integer timestamp in ms
and the five OHLCV cells.  A cell is `none` when the value is non-numeric
(`pd.to_numeric(..., errors='coerce')` turns it into NaN, which
`isnull` then detects).  The source column `open` is a Lean keyword, so that
field is spelled `opn`. -/
structure RawCandle where
  timestamp : ℤ
  opn : Option ℚ
  high : Option ℚ
  low : Option ℚ
  close : Option ℚ
  volume : Option ℚ
deriving DecidableEq, Repr

/-- Row of the enriched DataFrame after the numeric validation of
main.py lines 39-44: OHLCV values are plain rationals; each indicator cell is
`Option ℚ` with `none` for NaN.  The moving-average columns that exist only on
some timeframe branches (MA10/MA10_prev on 1h/15m, MA20/MA20_prev on 4h/1d,
MA50 on 1d) carry an outer `Option` for column presence: the outer `none`
means the column was never created, so accessing it raises `KeyError` in
Python (caught by `check_conditions`) and `dropna` ignores it. -/
structure Row where
  timestamp : ℤ
  opn : ℚ
  high : ℚ
  low : ℚ
  close : ℚ
  volume : ℚ
  MACD : Option ℚ
  MACD_signal : Option ℚ
  MACD_hist : Option ℚ
  RSI_7 : Option ℚ
  MA5 : Option ℚ
  MA5_prev : Option ℚ
  MA10 : Option (Option ℚ)
  MA10_prev : Option (Option ℚ)
  MA20 : Option (Option ℚ)
  MA20_prev : Option (Option ℚ)
  MA50 : Option (Option ℚ)
deriving DecidableEq, Repr

/-- Failure kinds of `fetch_market_data`, one per `return None` site, named
after the printed message: line 19 and line 90 both report insufficient data,
line 36 stale data, line 43 an invalid OHLCV value, line 84 a missing required
column, and the outer `except` of line 95 any exception raised by the
exchange call (including the `KeyError` on an unknown timeframe at line 35). -/
inductive FetchErr where
  | fetchFail
  | insufficientData
  | staleData
  | invalidValue
  | missingColumns
deriving DecidableEq, Repr

/-- Simple moving average of window `n` as `ta.sma(close, length=n)`:
`none` on the first `n-1` warm-up rows, afterwards the arithmetic mean of the
last `n` values. -/
def smaQ (n : ℕ) (xs : List ℚ) : List (Option ℚ) :=
  (List.range xs.length).map fun i =>
    if n ≤ i + 1 then some (((xs.drop (i + 1 - n)).take n).sum / (n : ℚ)) else none

/-- Pandas `Series.shift(1)`: drop the last cell and prepend a NaN. -/
def shift1 (xs : List (Option ℚ)) : List (Option ℚ) :=
  (none :: xs).take xs.length

/-- Exponentially weighted recursion `y_t = a * x_t + (1 - a) * y_(t-1)`
starting from `seed`. -/
def ewmRec (a : ℚ) (seed : ℚ) : List ℚ → List ℚ
  | [] => []
  | x :: xs => (a * x + (1 - a) * seed) :: ewmRec a (a * x + (1 - a) * seed) xs

/-- Exponentially weighted mean seeded with the simple mean of the first `n`
values (the pandas-ta convention): the first `n-1` cells are NaN, cell `n-1`
is the seed, and later cells follow the recursion with weight `a`. -/
def ewmSeeded (a : ℚ) (n : ℕ) (xs : List ℚ) : List (Option ℚ) :=
  if xs.length < n ∨ n = 0 then xs.map fun _ => none
  else
    (List.replicate (n - 1) (none : Option ℚ)) ++
      (some ((xs.take n).sum / (n : ℚ)) ::
        (ewmRec a ((xs.take n).sum / (n : ℚ)) (xs.drop n)).map some)

/-- EMA of span `n` (weight `2/(n+1)`). -/
def emaQ (n : ℕ) (xs : List ℚ) : List (Option ℚ) :=
  ewmSeeded (2 / ((n : ℚ) + 1)) n xs

/-- Wilder moving average of length `n` (weight `1/n`), used inside RSI. -/
def rmaQ (n : ℕ) (xs : List ℚ) : List (Option ℚ) :=
  ewmSeeded (1 / (n : ℚ)) n xs

/-- Difference of two optional cells, NaN-propagating. -/
def subO (a b : Option ℚ) : Option ℚ :=
  match a, b with
  | some x, some y => some (x - y)
  | _, _ => none

/-- MACD(12,26,9) columns as `ta.macd(close)`: line = EMA12 − EMA26 (defined
once both are), signal = EMA9 of the defined suffix of the line, histogram =
line − signal. -/
def macdColumns (xs : List ℚ) : List (Option ℚ) × List (Option ℚ) × List (Option ℚ) :=
  let line := List.zipWith subO (emaQ 12 xs) (emaQ 26 xs)
  let vals := line.filterMap id
  let signal := (List.replicate (line.length - vals.length) (none : Option ℚ)) ++ emaQ 9 vals
  (line, signal, List.zipWith subO line signal)

/-- Successive differences `close.diff()` (without the leading NaN cell). -/
def diffsQ (xs : List ℚ) : List ℚ :=
  List.zipWith (fun a b => a - b) xs.tail xs.dropLast

/-- RSI of length `n` with Wilder smoothing, as `ta.rsi(close, length=7)`:
average gain over average movement, scaled to [0,100]; NaN while the averages
are warming up and when both averages are zero (a 0/0 in pandas). -/
def rsiQ (n : ℕ) (xs : List ℚ) : List (Option ℚ) :=
  let d := diffsQ xs
  let g := rmaQ n (d.map fun x => max x 0)
  let l := rmaQ n (d.map fun x => max (-x) 0)
  (none : Option ℚ) ::
    List.zipWith (fun a b =>
      match a, b with
      | some ga, some lo => if ga + lo = 0 then none else some (100 * ga / (ga + lo))
      | _, _ => none) g l

/-- Abstraction of the pandas-ta calls of main.py lines 47-54: each field maps
the close column to one generated indicator column.  Theorems about the
repository's control flow are stated for an arbitrary library; `defaultLib`
below is the concrete rendering used on concrete inputs. -/
structure IndicatorLib where
  macd : List ℚ → List (Option ℚ)
  macdSignal : List ℚ → List (Option ℚ)
  macdHist : List ℚ → List (Option ℚ)
  rsi7 : List ℚ → List (Option ℚ)

/-- Concrete indicator library: MACD(12,26,9), Wilder RSI(7). -/
def defaultLib : IndicatorLib where
  macd := fun xs => (macdColumns xs).1
  macdSignal := fun xs => (macdColumns xs).2.1
  macdHist := fun xs => (macdColumns xs).2.2
  rsi7 := rsiQ 7

/-- Maximum staleness per timeframe in milliseconds, the `max_delay` dict of
main.py lines 28-33; `none` models the `KeyError` on any other key. -/
def maxDelay (tf : String) : Option ℤ :=
  if tf = "15m" then some (15 * 60 * 1000)
  else if tf = "1h" then some (60 * 60 * 1000)
  else if tf = "4h" then some (4 * 60 * 60 * 1000)
  else if tf = "1d" then some (24 * 60 * 60 * 1000)
  else none

/-- Timestamp of the last candle (`df['timestamp'].iloc[-1]`); 0 as a
placeholder on the empty list, which the caller has already excluded. -/
def lastTs (raw : List RawCandle) : ℤ :=
  (raw.getLast?).elim 0 RawCandle.timestamp

/-- The per-column numeric validation of main.py lines 39-44: every OHLCV
cell of every candle parses to a number. -/
def allNumeric (raw : List RawCandle) : Bool :=
  raw.all fun r =>
    r.opn.isSome && r.high.isSome && r.low.isSome && r.close.isSome && r.volume.isSome

/-- Indicator enrichment of main.py lines 46-70: MACD, signal and histogram
plus RSI_7 from the library, MA5 and its shift always, and per branch MA10 or
MA20 (and MA50 on 1d) with their shifts; columns the branch does not create
are absent (outer `none`). -/
def enrich (lib : IndicatorLib) (raw : List RawCandle) (tf : String) : List Row :=
  let closes := raw.map fun r => r.close.getD 0
  let ml := lib.macd closes
  let ms := lib.macdSignal closes
  let mh := lib.macdHist closes
  let rs := lib.rsi7 closes
  let ma5 := smaQ 5 closes
  let ma5p := shift1 ma5
  if tf = "1h" ∨ tf = "15m" then
    let ma10 := smaQ 10 closes
    let ma10p := shift1 ma10
    raw.enum.map fun p =>
      { timestamp := p.2.timestamp, opn := p.2.opn.getD 0, high := p.2.high.getD 0,
        low := p.2.low.getD 0, close := p.2.close.getD 0, volume := p.2.volume.getD 0,
        MACD := ml.getD p.1 none, MACD_signal := ms.getD p.1 none,
        MACD_hist := mh.getD p.1 none, RSI_7 := rs.getD p.1 none,
        MA5 := ma5.getD p.1 none, MA5_prev := ma5p.getD p.1 none,
        MA10 := some (ma10.getD p.1 none), MA10_prev := some (ma10p.getD p.1 none),
        MA20 := none, MA20_prev := none, MA50 := none }
  else
    let ma20 := smaQ 20 closes
    let ma20p := shift1 ma20
    let ma50 := smaQ 50 closes
    raw.enum.map fun p =>
      { timestamp := p.2.timestamp, opn := p.2.opn.getD 0, high := p.2.high.getD 0,
        low := p.2.low.getD 0, close := p.2.close.getD 0, volume := p.2.volume.getD 0,
        MACD := ml.getD p.1 none, MACD_signal := ms.getD p.1 none,
        MACD_hist := mh.getD p.1 none, RSI_7 := rs.getD p.1 none,
        MA5 := ma5.getD p.1 none, MA5_prev := ma5p.getD p.1 none,
        MA10 := none, MA10_prev := none,
        MA20 := some (ma20.getD p.1 none), MA20_prev := some (ma20p.getD p.1 none),
        MA50 := if tf = "1d" then some (ma50.getD p.1 none) else none }

/-- Presence-aware cell completeness for `dropna`: an absent column imposes
nothing; a present column must hold a value. -/
def pcell (x : Option (Option ℚ)) : Bool :=
  match x with
  | none => true
  | some v => v.isSome

/-- A row survives `df.dropna()` iff no cell of any existing column is NaN
(timestamp and the validated OHLCV cells can no longer be NaN here). -/
def rowComplete (r : Row) : Bool :=
  r.MACD.isSome && r.MACD_signal.isSome && r.MACD_hist.isSome && r.RSI_7.isSome &&
    r.MA5.isSome && r.MA5_prev.isSome && pcell r.MA10 && pcell r.MA10_prev &&
    pcell r.MA20 && pcell r.MA20_prev && pcell r.MA50

/-- The required-columns membership check of main.py lines 75-85
(`col in df.columns`): close, RSI_7, MACD_hist and MA5 are always created, so
only the branch-dependent moving-average columns are listed; an unknown
timeframe would raise `KeyError` on `required_columns[timeframe]`, but that
point is unreachable because `max_delay[timeframe]` already raised. -/
def requiredPresent (tf : String) (r : Row) : Bool :=
  if tf = "1d" then r.MA20.isSome && r.MA50.isSome
  else if tf = "4h" then r.MA20.isSome
  else if tf = "1h" ∨ tf = "15m" then r.MA10.isSome
  else false

/-- Tail of the fetch pipeline after the staleness gate, in source order:
numeric validation (main.py lines 39-44), indicator enrichment (46-70),
required-columns membership (75-85), `dropna` with the length re-check
(87-91), and `df.tail(limit)` (93). -/
def computeStage (lib : IndicatorLib) (raw : List RawCandle) (timeframe : String)
    (limit : ℕ) : Except FetchErr (List Row) :=
  if !allNumeric raw then Except.error FetchErr.invalidValue
  else
    let df := enrich lib raw timeframe
    if !(df.all (requiredPresent timeframe)) then Except.error FetchErr.missingColumns
    else
      let kept := df.filter rowComplete
      if decide (kept.length < limit) then Except.error FetchErr.insufficientData
      else Except.ok (kept.drop (kept.length - limit))

/-- Embedding of `fetch_market_data` (main.py lines 10-97).  The exchange
reply to `fetch_ohlcv(symbol, timeframe, limit=limit+50)` is the input
`ohlcv`, with `none` when the call raised; `current_time` is
`exchange.milliseconds()`.  The checks run in source order: emptiness or
`len(ohlcv) < limit` (line 18), the `max_delay` lookup (35), staleness (35),
then the rest of the pipeline in `computeStage`. -/
def fetch_market_data (lib : IndicatorLib) (ohlcv : Option (List RawCandle))
    (current_time : ℤ) (timeframe : String) (limit : ℕ) : Except FetchErr (List Row) :=
  match ohlcv with
  | none => Except.error FetchErr.fetchFail
  | some raw =>
    if raw.isEmpty || decide (raw.length < limit) then Except.error FetchErr.insufficientData
    else
      match maxDelay timeframe with
      | none => Except.error FetchErr.fetchFail
      | some d =>
        if decide (current_time - lastTs raw > d) then Except.error FetchErr.staleData
        else computeStage lib raw timeframe limit

/-- Python `a < b` over possibly-NaN operands: any comparison with NaN is
`False`. -/
def pyLt (a b : Option ℚ) : Bool :=
  match a, b with
  | some x, some y => decide (x < y)
  | _, _ => false

/-- Python `a > b` over possibly-NaN operands. -/
def pyGt (a b : Option ℚ) : Bool :=
  pyLt b a

/-- Embedding of `check_conditions` (main.py lines 99-144).  Returns `false`
when `df is None` or `df.empty`; otherwise evaluates the timeframe's
predicate on the final row.  A `KeyError` on an absent column
(`Option.join` turning the outer `none` into `none`) and a NaN operand both
make the caught-exception / NaN-comparison paths of the source yield `False`,
which is what the `none`-absorbing comparisons compute. -/
def check_conditions (df : Option (List Row)) (timeframe : String) : Bool :=
  match df with
  | none => false
  | some rows =>
    match rows.getLast? with
    | none => false
    | some r =>
      if timeframe = "1d" then
        pyGt (some r.close) r.MA5 && pyGt (some r.close) r.MA20.join &&
          pyGt (some r.close) r.MA50.join && pyGt r.MACD_hist (some 0) &&
          pyLt (some 50) r.RSI_7 && pyLt r.RSI_7 (some 70) &&
          pyGt r.MA5 r.MA5_prev && pyGt r.MA20.join r.MA20_prev.join
      else if timeframe = "4h" then
        pyGt (some r.close) r.MA5 && pyGt (some r.close) r.MA20.join &&
          pyGt r.MACD_hist (some 0) &&
          pyLt (some 50) r.RSI_7 && pyLt r.RSI_7 (some 70) &&
          pyGt r.MA5 r.MA5_prev && pyGt r.MA20.join r.MA20_prev.join
      else if timeframe = "1h" ∨ timeframe = "15m" then
        pyGt r.MA5 r.MA10.join && pyGt r.MACD_hist (some 0) &&
          pyLt (some 50) r.RSI_7 && pyLt r.RSI_7 (some 75) &&
          pyGt r.MA5 r.MA5_prev && pyGt r.MA10.join r.MA10_prev.join
      else false

/-- One iteration of the loop of main.py lines 153-159 for one timeframe:
when the fetch returned a frame, the verdict is appended to `results` and the
satisfied counter is bumped when it holds; when the fetch returned `None`,
nothing at all is recorded. -/
def screenStep (fetchO : String → Option (List Row))
    (acc : List (String × Bool) × ℕ) (tf : String) : List (String × Bool) × ℕ :=
  match fetchO tf with
  | none => acc
  | some df =>
    (acc.1 ++ [(tf, check_conditions (some df) tf)],
      if check_conditions (some df) tf then acc.2 + 1 else acc.2)

/-- Embedding of `filter_by_conditions` (main.py lines 146-166), with the
symbol abstracted into the per-timeframe fetch oracle `fetchO` (the result of
`fetch_market_data(symbol, timeframe)`, `none` when that returned `None`).
Returns the `results` dict (as an ordered association list; it is printed at
lines 161-164) together with the returned boolean
`satisfied_timeframes >= 3`. -/
def filter_by_conditions (fetchO : String → Option (List Row))
    (timeframes : List String) : List (String × Bool) × Bool :=
  let r := timeframes.foldl (screenStep fetchO) ([], 0)
  (r.1, decide (3 ≤ r.2))

/-- Row of a 1d-shaped frame (MA20/MA50 family present, MA10 family as
given) whose predicate cells are all populated; used to state the daily rule
over arbitrary final-row values. -/
def mk1dRow (ts : ℤ) (o hi lo c v : ℚ) (ml ms : Option ℚ)
    (m10 m10p : Option (Option ℚ)) (hist rsi m5 m5p m20 m20p m50 : ℚ) : Row :=
  { timestamp := ts, opn := o, high := hi, low := lo, close := c, volume := v,
    MACD := ml, MACD_signal := ms, MACD_hist := some hist, RSI_7 := some rsi,
    MA5 := some m5, MA5_prev := some m5p, MA10 := m10, MA10_prev := m10p,
    MA20 := some (some m20), MA20_prev := some (some m20p), MA50 := some (some m50) }

/-- Row of a 1h/15m-shaped frame (MA10 family present, MA20/MA50 family as
given) whose predicate cells are all populated. -/
def mk1hRow (ts : ℤ) (o hi lo c v : ℚ) (ml ms : Option ℚ)
    (m20 m20p m50 : Option (Option ℚ)) (hist rsi m5 m5p m10 m10p : ℚ) : Row :=
  { timestamp := ts, opn := o, high := hi, low := lo, close := c, volume := v,
    MACD := ml, MACD_signal := ms, MACD_hist := some hist, RSI_7 := some rsi,
    MA5 := some m5, MA5_prev := some m5p,
    MA10 := some (some m10), MA10_prev := some (some m10p),
    MA20 := m20, MA20_prev := m20p, MA50 := m50 }

/-- Shorthand for which of a timeframe's predicate inputs check_conditions can
find missing or NaN on the final row (close is structurally present after
validation, so the fallible inputs are the indicator cells and the
branch-dependent moving averages accessed through `Option.join`). -/
def predInputMissing (tf : String) (r : Row) : Bool :=
  if tf = "1d" then
    r.MACD_hist.isNone || r.RSI_7.isNone || r.MA5.isNone || r.MA5_prev.isNone ||
      r.MA20.join.isNone || r.MA20_prev.join.isNone || r.MA50.join.isNone
  else if tf = "4h" then
    r.MACD_hist.isNone || r.RSI_7.isNone || r.MA5.isNone || r.MA5_prev.isNone ||
      r.MA20.join.isNone || r.MA20_prev.join.isNone
  else if tf = "1h" ∨ tf = "15m" then
    r.MACD_hist.isNone || r.RSI_7.isNone || r.MA5.isNone || r.MA5_prev.isNone ||
      r.MA10.join.isNone || r.MA10_prev.join.isNone
  else false

/-- Strict ascension of the candle timestamps (no duplicates, ascending).
The source never computes this; it is stated so that theorems can speak about
series violating it. -/
def tsStrictAsc : List RawCandle → Bool
  | [] => true
  | [_] => true
  | a :: b :: rest => decide (a.timestamp < b.timestamp) && tsStrictAsc (b :: rest)

/-- Demo row shaped like a `1d` frame and satisfying the daily predicate:
the concrete last row of the spec's predicate-correctness example. -/
def row1d : Row :=
  { timestamp := 0, opn := 110, high := 110, low := 110, close := 110, volume := 1,
    MACD := some 1, MACD_signal := some (1/2), MACD_hist := some (1/2),
    RSI_7 := some 60, MA5 := some 105, MA5_prev := some 104,
    MA10 := none, MA10_prev := none,
    MA20 := some (some 100), MA20_prev := some (some 99), MA50 := some (some 95) }

/-- The same demo row with RSI_7 pushed to 72, outside the (50, 70) band. -/
def row1dRsi72 : Row :=
  { row1d with RSI_7 := some 72 }

/-- The same demo row with the RSI_7 cell NaN and every other clause holding. -/
def row1dRsiNaN : Row :=
  { row1d with RSI_7 := none }

/-- Demo row shaped like a `1h`/`15m` frame and satisfying that predicate. -/
def row1h : Row :=
  { timestamp := 0, opn := 100, high := 100, low := 100, close := 100, volume := 1,
    MACD := some 1, MACD_signal := some (1/2), MACD_hist := some (1/2),
    RSI_7 := some 60, MA5 := some 90, MA5_prev := some 89,
    MA10 := some (some 80), MA10_prev := some (some 79),
    MA20 := none, MA20_prev := none, MA50 := none }

/-- Fetch oracle for the fault-isolation scenario: the 4h fetch fails, the
other three timeframes return frames whose predicates hold. -/
def cexFetch : String → Option (List Row) :=
  fun tf => if tf = "4h" then none
    else if tf = "1d" then some [row1d]
    else some [row1h]

lemma pyLt_none_left (b : Option ℚ) : pyLt none b = false := rfl

lemma pyLt_none_right (a : Option ℚ) : pyLt a none = false := by
  cases a <;> rfl

lemma pyGt_none_left (b : Option ℚ) : pyGt none b = false := pyLt_none_right b

lemma pyGt_none_right (a : Option ℚ) : pyGt a none = false := rfl

lemma pyLt_some_some (a b : ℚ) : pyLt (some a) (some b) = decide (a < b) := rfl

lemma pyGt_some_some (a b : ℚ) : pyGt (some a) (some b) = decide (b < a) := rfl

lemma check_conditions_none (tf : String) : check_conditions none tf = false := rfl

/-- The satisfied-timeframes counter accumulated by the loop equals the count
of timeframes whose fetched frame satisfies its predicate (a timeframe whose
fetch failed contributes nothing, exactly as `check_conditions` of a `None`
frame contributes `false`). -/
lemma foldl_screenStep_snd (fetchO : String → Option (List Row)) (tfs : List String)
    (res : List (String × Bool)) (cnt : ℕ) :
    (tfs.foldl (screenStep fetchO) (res, cnt)).2 =
      cnt + tfs.countP (fun tf => check_conditions (fetchO tf) tf) := by
  induction tfs generalizing res cnt with
  | nil => simp
  | cons tf tfs ih =>
    simp only [List.foldl_cons, List.countP_cons]
    cases hf : fetchO tf with
    | none =>
      rw [screenStep, hf]
      rw [ih]
      simp [check_conditions_none, hf]
    | some df =>
      rw [screenStep, hf]
      rw [ih]
      by_cases hc : check_conditions (some df) tf = true
      · simp [hf, hc]
        omega
      · simp only [Bool.not_eq_true] at hc
        simp [hf, hc]

/-- Every entry the loop appends to `results` belongs to a timeframe whose
fetch returned a frame. -/
lemma foldl_screenStep_keys (fetchO : String → Option (List Row)) (tfs : List String)
    (res : List (String × Bool)) (cnt : ℕ) (p : String × Bool)
    (hp : p ∈ (tfs.foldl (screenStep fetchO) (res, cnt)).1) :
    p ∈ res ∨ (p.1 ∈ tfs ∧ (fetchO p.1).isSome) := by
  induction tfs generalizing res cnt with
  | nil => exact Or.inl (by simpa using hp)
  | cons tf tfs ih =>
    simp only [List.foldl_cons] at hp
    cases hf : fetchO tf with
    | none =>
      rw [screenStep, hf] at hp
      rcases ih _ _ hp with h | h
      · exact Or.inl h
      · exact Or.inr ⟨List.mem_cons_of_mem _ h.1, h.2⟩
    | some df =>
      rw [screenStep, hf] at hp
      rcases ih _ _ hp with h | h
      · rcases List.mem_append.mp h with h' | h'
        · exact Or.inl h'
        · rcases List.mem_singleton.mp h' with rfl
          exact Or.inr ⟨List.mem_cons_self _ _, by simp [hf]⟩
      · exact Or.inr ⟨List.mem_cons_of_mem _ h.1, h.2⟩

/-- A key absent from every entry of an association list looks up to `none`. -/
lemma lookup_eq_none_of_keys (l : List (String × Bool)) (k : String)
    (h : ∀ p ∈ l, p.1 ≠ k) : l.lookup k = none := by
  induction l with
  | nil => rfl
  | cons p l ih =>
    have hp : p.1 ≠ k := h p (List.mem_cons_self _ _)
    have : (k == p.1) = false := by
      simp [Ne.symm hp]
    simp only [List.lookup, this]
    exact ih fun q hq => h q (List.mem_cons_of_mem _ hq)

/-- C1: for every symbol (abstracted as its per-timeframe fetch oracle) the
screening passes iff at least 3 of the four configured timeframes carry a
`true` verdict, a failed fetch counting as no `true` verdict. -/
theorem quorum_law (fetchO : String → Option (List Row)) :
    (filter_by_conditions fetchO ["1d", "4h", "1h", "15m"]).2 = true ↔
      3 ≤ (["1d", "4h", "1h", "15m"].countP
        fun tf => check_conditions (fetchO tf) tf) := by
  unfold filter_by_conditions
  simp only [foldl_screenStep_snd, Nat.zero_add, decide_eq_true_eq]

/-- C2 counterexample: when the 4h fetch fails, the `results` dict of
`filter_by_conditions` records no verdict at all for `4h` (the claim says the
verdict is recorded as `false`). -/
theorem fetch_failure_verdict_not_recorded :
    (filter_by_conditions cexFetch ["1d", "4h", "1h", "15m"]).1.lookup "4h" = none ∧
      ¬ ((filter_by_conditions cexFetch ["1d", "4h", "1h", "15m"]).1.lookup "4h"
        = some false) := by
  with_unfolding_all decide

/-- C2 (amended): when the 4h fetch fails, its timeframe is omitted from the
`results` dict (not recorded as `false`), the other three timeframes'
verdicts contribute normally, and the screening still returns the quorum
boolean computed over those remaining verdicts. -/
theorem fetch_failure_isolated (fetchO : String → Option (List Row))
    (hf : fetchO "4h" = none) :
    (filter_by_conditions fetchO ["1d", "4h", "1h", "15m"]).1.lookup "4h" = none ∧
      ((filter_by_conditions fetchO ["1d", "4h", "1h", "15m"]).2 = true ↔
        3 ≤ (["1d", "1h", "15m"].countP
          fun tf => check_conditions (fetchO tf) tf)) := by
  constructor
  · apply lookup_eq_none_of_keys
    intro p hp
    rcases foldl_screenStep_keys fetchO _ _ _ p hp with h | h
    · simp at h
    · intro hk
      rw [hk, hf] at h
      simp at h
  · unfold filter_by_conditions
    simp only [foldl_screenStep_snd, Nat.zero_add, decide_eq_true_eq]
    have h4 : check_conditions (fetchO "4h") "4h" = false := by
      rw [hf]; rfl
    simp [List.countP_cons, h4]

/-- C2 witness: the concrete scenario with a failed 4h fetch and the three
other timeframes' predicates satisfied. -/
theorem fetch_failure_isolated_witness :
    cexFetch "4h" = none ∧
      ((filter_by_conditions cexFetch ["1d", "4h", "1h", "15m"]).1.lookup "4h" = none ∧
        ((filter_by_conditions cexFetch ["1d", "4h", "1h", "15m"]).2 = true ↔
          3 ≤ (["1d", "1h", "15m"].countP
            fun tf => check_conditions (cexFetch tf) tf))) :=
  ⟨by with_unfolding_all decide, fetch_failure_isolated cexFetch (by with_unfolding_all decide)⟩

/-- C6: on a 1d frame whose final row carries the populated predicate cells,
`check_conditions` holds iff close > MA5, close > MA20, close > MA50,
MACD histogram > 0, 50 < RSI_7 < 70, MA5 rising and MA20 rising; moreover the
spec's concrete example row evaluates to `true` and flipping its RSI_7 to 72
evaluates to `false`. -/
theorem evaluate_1d_iff (rows : List Row) (ts : ℤ) (o hi lo vol : ℚ)
    (ml ms : Option ℚ) (m10 m10p : Option (Option ℚ))
    (c m5 m5p hist rsi m20 m20p m50 : ℚ) :
    (check_conditions
        (some (rows ++ [mk1dRow ts o hi lo c vol ml ms m10 m10p hist rsi m5 m5p m20 m20p m50]))
        "1d" = true ↔
      (c > m5 ∧ c > m20 ∧ c > m50 ∧ hist > 0 ∧ 50 < rsi ∧ rsi < 70 ∧
        m5 > m5p ∧ m20 > m20p)) ∧
      check_conditions (some [row1d]) "1d" = true ∧
      check_conditions (some [row1dRsi72]) "1d" = false := by
  refine ⟨?_, by with_unfolding_all decide, by with_unfolding_all decide⟩
  simp [check_conditions, mk1dRow, List.getLast?_concat, pyGt, pyLt, Option.join, and_assoc]

/-- C7: on a 1h or 15m frame whose final row carries the populated predicate
cells, `check_conditions` holds iff MA5 > MA10, MACD histogram > 0,
50 < RSI_7 < 75 (upper bound 75 here, versus 70 on 1d/4h), MA5 rising and
MA10 rising. -/
theorem evaluate_1h_15m_iff (rows : List Row) (ts : ℤ) (o hi lo vol c : ℚ)
    (ml ms : Option ℚ) (m20 m20p m50 : Option (Option ℚ))
    (m5 m5p m10 m10p hist rsi : ℚ) :
    (check_conditions
        (some (rows ++ [mk1hRow ts o hi lo c vol ml ms m20 m20p m50 hist rsi m5 m5p m10 m10p]))
        "1h" = true ↔
      (m5 > m10 ∧ hist > 0 ∧ 50 < rsi ∧ rsi < 75 ∧ m5 > m5p ∧ m10 > m10p)) ∧
    (check_conditions
        (some (rows ++ [mk1hRow ts o hi lo c vol ml ms m20 m20p m50 hist rsi m5 m5p m10 m10p]))
        "15m" = true ↔
      (m5 > m10 ∧ hist > 0 ∧ 50 < rsi ∧ rsi < 75 ∧ m5 > m5p ∧ m10 > m10p)) := by
  constructor
  · simp [check_conditions, mk1hRow, List.getLast?_concat, pyGt, pyLt, Option.join, and_assoc]
  · simp [check_conditions, mk1hRow, List.getLast?_concat, pyGt, pyLt, Option.join, and_assoc]

/-- C8 counterexample: a 1d frame whose final row has every predicate clause
satisfied except that RSI_7 is NaN; the source's `check_conditions` returns
`false` (NaN comparisons are `False` and exceptions are caught), it does not
fail with a distinguishable rule-evaluation error. -/
theorem evaluate_nan_input_returns_false_cex :
    check_conditions (some [row1dRsiNaN]) "1d" = false := by
  with_unfolding_all decide

/-- C8 (amended): a missing or NaN predicate input makes `check_conditions`
return `false` (the `KeyError` is caught at the source's line 142 and NaN
comparisons are falsy); no error outcome distinct from `false` exists. -/
theorem evaluate_missing_input_returns_false (rows : List Row) (r : Row) (tf : String)
    (hr : rows.getLast? = some r) (hmiss : predInputMissing tf r = true) :
    check_conditions (some rows) tf = false := by
  by_cases h1 : tf = "1d"
  · subst h1
    rw [predInputMissing, if_pos rfl] at hmiss
    simp only [Bool.or_eq_true, Option.isNone_iff_eq_none] at hmiss
    have hc : check_conditions (some rows) "1d" =
        (pyGt (some r.close) r.MA5 && pyGt (some r.close) r.MA20.join &&
          pyGt (some r.close) r.MA50.join && pyGt r.MACD_hist (some 0) &&
          pyLt (some 50) r.RSI_7 && pyLt r.RSI_7 (some 70) &&
          pyGt r.MA5 r.MA5_prev && pyGt r.MA20.join r.MA20_prev.join) := by
      simp only [check_conditions, hr]
      simp
    rw [hc]
    rcases hmiss with ((((((h | h) | h) | h) | h) | h) | h) <;>
      rw [h] <;>
      simp [pyGt_none_left, pyGt_none_right, pyLt_none_left, pyLt_none_right]
  · by_cases h2 : tf = "4h"
    · subst h2
      rw [predInputMissing, if_neg h1, if_pos rfl] at hmiss
      simp only [Bool.or_eq_true, Option.isNone_iff_eq_none] at hmiss
      have hc : check_conditions (some rows) "4h" =
          (pyGt (some r.close) r.MA5 && pyGt (some r.close) r.MA20.join &&
            pyGt r.MACD_hist (some 0) &&
            pyLt (some 50) r.RSI_7 && pyLt r.RSI_7 (some 70) &&
            pyGt r.MA5 r.MA5_prev && pyGt r.MA20.join r.MA20_prev.join) := by
        simp only [check_conditions, hr]
        simp
      rw [hc]
      rcases hmiss with (((((h | h) | h) | h) | h) | h) <;>
        rw [h] <;>
        simp [pyGt_none_left, pyGt_none_right, pyLt_none_left, pyLt_none_right]
    · by_cases h3 : tf = "1h" ∨ tf = "15m"
      · rw [predInputMissing, if_neg h1, if_neg h2, if_pos h3] at hmiss
        simp only [Bool.or_eq_true, Option.isNone_iff_eq_none] at hmiss
        have hc : check_conditions (some rows) tf =
            (pyGt r.MA5 r.MA10.join && pyGt r.MACD_hist (some 0) &&
              pyLt (some 50) r.RSI_7 && pyLt r.RSI_7 (some 75) &&
              pyGt r.MA5 r.MA5_prev && pyGt r.MA10.join r.MA10_prev.join) := by
          simp only [check_conditions, hr]
          rw [if_neg h1, if_neg h2, if_pos h3]
        rw [hc]
        rcases hmiss with (((((h | h) | h) | h) | h) | h) <;>
          rw [h] <;>
          simp [pyGt_none_left, pyGt_none_right, pyLt_none_left, pyLt_none_right]
      · rw [predInputMissing, if_neg h1, if_neg h2, if_neg h3] at hmiss
        exact absurd hmiss (by simp)

/-- C8 witness: the NaN-RSI row instantiates the amended statement. -/
theorem evaluate_missing_input_returns_false_witness :
    ([row1dRsiNaN].getLast? = some row1dRsiNaN) ∧
      predInputMissing "1d" row1dRsiNaN = true ∧
      check_conditions (some [row1dRsiNaN]) "1d" = false :=
  ⟨rfl, by with_unfolding_all decide,
    evaluate_missing_input_returns_false [row1dRsiNaN] row1dRsiNaN "1d" rfl
      (by with_unfolding_all decide)⟩

/-- C10: `check_conditions` is total: a `None` frame and an empty frame give
`false` for every timeframe, and any timeframe outside the four configured
tags gives `false` for every frame; no exception escapes. -/
theorem check_conditions_total (df : Option (List Row)) (tf tfu : String)
    (h : tfu ∉ (["1d", "4h", "1h", "15m"] : List String)) :
    check_conditions none tf = false ∧
      check_conditions (some ([] : List Row)) tf = false ∧
      check_conditions df tfu = false := by
  refine ⟨rfl, rfl, ?_⟩
  simp only [List.mem_cons, List.not_mem_nil, or_false, not_or] at h
  obtain ⟨h1, h2, h3, h4⟩ := h
  cases df with
  | none => rfl
  | some rows =>
    cases hl : rows.getLast? with
    | none => simp [check_conditions, hl]
    | some r => simp [check_conditions, hl, h1, h2, h3, h4]

/-- C10 witness: the unknown timeframe tag 2h on a nonempty frame, plus the
None and empty cases. -/
theorem check_conditions_total_witness :
    ("2h" ∉ (["1d", "4h", "1h", "15m"] : List String)) ∧
      (check_conditions none "1d" = false ∧
        check_conditions (some ([] : List Row)) "1d" = false ∧
        check_conditions (some [row1d]) "2h" = false) :=
  ⟨by decide, check_conditions_total (some [row1d]) "1d" "2h" (by decide)⟩

instance : DecidableEq (Except FetchErr (List Row)) := fun a b =>
  match a, b with
  | Except.ok x, Except.ok y =>
    if h : x = y then Decidable.isTrue (by rw [h]) else Decidable.isFalse (by simp [h])
  | Except.error x, Except.error y =>
    if h : x = y then Decidable.isTrue (by rw [h]) else Decidable.isFalse (by simp [h])
  | Except.ok _, Except.error _ => Decidable.isFalse (by simp)
  | Except.error _, Except.ok _ => Decidable.isFalse (by simp)

/-- Demo raw series: 34 candles, 15-minute spacing, strictly rising closes
1..34 (34 rows are the minimum for one fully populated row, the MACD signal
warm-up being 33 rows). -/
def rawDemo : List RawCandle :=
  (List.range 34).map fun i =>
    { timestamp := (i : ℤ) * 900000, opn := some ((i : ℚ) + 1), high := some ((i : ℚ) + 1),
      low := some ((i : ℚ) + 1), close := some ((i : ℚ) + 1), volume := some 1 }

/-- The acquisition time used with `rawDemo`: exactly the last timestamp. -/
def demoNow : ℤ := 33 * 900000

/-- The same series with every timestamp collapsed to 0: duplicated,
non-ascending timestamps, numerically valid values. -/
def rawDup : List RawCandle :=
  rawDemo.map fun c => { c with timestamp := 0 }

/-- One fresh single-candle series for the staleness boundary. -/
def rawDemo1 : List RawCandle :=
  [{ timestamp := 0, opn := some 1, high := some 1, low := some 1, close := some 1,
     volume := some 1 }]

/-- The frame actually returned by the fetch pipeline on `rawDemo`. -/
def demoFrame : List Row :=
  (fetch_market_data defaultLib (some rawDemo) demoNow "15m" 1).toOption.getD []

/-- The compute stage never reports stale data: its error kinds are invalid
value, missing columns or insufficient data. -/
lemma computeStage_ne_staleData (lib : IndicatorLib) (raw : List RawCandle)
    (tf : String) (limit : ℕ) :
    computeStage lib raw tf limit ≠ Except.error FetchErr.staleData := by
  simp only [computeStage]
  split
  · simp
  · split
    · simp
    · split <;> simp

/-- Under valid numeric data and present required columns, the compute stage
reports insufficient data iff fewer than `limit` rows survive `dropna`. -/
lemma computeStage_insufficient_iff (lib : IndicatorLib) (raw : List RawCandle)
    (tf : String) (limit : ℕ) (hvalid : allNumeric raw = true)
    (hreq : (enrich lib raw tf).all (requiredPresent tf) = true) :
    (computeStage lib raw tf limit = Except.error FetchErr.insufficientData ↔
      ((enrich lib raw tf).filter rowComplete).length < limit) := by
  simp only [computeStage, hvalid, hreq]
  by_cases hk : ((enrich lib raw tf).filter rowComplete).length < limit
  · simp [hk]
  · simp [hk]

/-- Under valid numeric data, present required columns and enough complete
rows, the compute stage succeeds. -/
lemma computeStage_isOk (lib : IndicatorLib) (raw : List RawCandle)
    (tf : String) (limit : ℕ) (hvalid : allNumeric raw = true)
    (hreq : (enrich lib raw tf).all (requiredPresent tf) = true)
    (hkept : ¬ ((enrich lib raw tf).filter rowComplete).length < limit) :
    (computeStage lib raw tf limit).isOk = true := by
  simp only [computeStage, hvalid, hreq]
  simp [hkept, Except.isOk, Except.toBool]

/-- A successful compute stage returns exactly `limit` rows, all complete and
all carrying the timeframe's required columns. -/
lemma computeStage_ok (lib : IndicatorLib) (raw : List RawCandle) (tf : String)
    (limit : ℕ) (df : List Row) (h : computeStage lib raw tf limit = Except.ok df) :
    df.length = limit ∧ ∀ r ∈ df, rowComplete r = true ∧ requiredPresent tf r = true := by
  simp only [computeStage] at h
  split at h
  · exact absurd h (by simp)
  · split at h
    · exact absurd h (by simp)
    · rename_i hreq
      split at h
      · exact absurd h (by simp)
      · rename_i hkept
        rw [Except.ok.injEq] at h
        subst h
        have hlim : ¬ ((enrich lib raw tf).filter rowComplete).length < limit := by
          simpa using hkept
        constructor
        · rw [List.length_drop]
          omega
        · intro r hrmem
          have hk : r ∈ (enrich lib raw tf).filter rowComplete :=
            List.mem_of_mem_drop hrmem
          have hk' := List.mem_filter.mp hk
          refine ⟨hk'.2, ?_⟩
          have hall : (enrich lib raw tf).all (requiredPresent tf) = true := by
            simpa using hreq
          exact List.all_eq_true.mp hall r hk'.1

/-- C3: the fetch pipeline either fails or returns a frame of exactly
`limit` rows (the window, default 100) in which every column existing on the
frame -- in particular every required indicator for the timeframe -- is
populated; it never returns a shorter or partially populated frame. -/
theorem fetch_window_invariant (lib : IndicatorLib) (ohlcv : Option (List RawCandle))
    (now : ℤ) (tf : String) (limit : ℕ) (df : List Row)
    (h : fetch_market_data lib ohlcv now tf limit = Except.ok df) :
    df.length = limit ∧ ∀ r ∈ df, rowComplete r = true ∧ requiredPresent tf r = true := by
  cases ohlcv with
  | none => exact absurd h (by simp [fetch_market_data])
  | some raw =>
    simp only [fetch_market_data] at h
    split at h
    · exact absurd h (by simp)
    · split at h
      · exact absurd h (by simp)
      · split at h
        · exact absurd h (by simp)
        · exact computeStage_ok _ _ _ _ _ h

/-- A successful `Except` equals `ok` of the value its `toOption` carries. -/
lemma isOk_eq_ok (e : Except FetchErr (List Row)) (h : e.isOk = true) :
    e = Except.ok (e.toOption.getD []) := by
  cases e with
  | ok x => rfl
  | error x => simp [Except.isOk, Except.toBool] at h

/-- C3 witness: the demo fetch returns one row (limit 1), complete and with
the 15m-required columns present. -/
theorem fetch_window_invariant_witness :
    (fetch_market_data defaultLib (some rawDemo) demoNow "15m" 1 = Except.ok demoFrame) ∧
      (demoFrame.length = 1 ∧
        ∀ r ∈ demoFrame, rowComplete r = true ∧ requiredPresent "15m" r = true) := by
  have hOk : (fetch_market_data defaultLib (some rawDemo) demoNow "15m" 1).isOk = true := by
    with_unfolding_all decide
  have hEq := isOk_eq_ok _ hOk
  exact ⟨hEq, fetch_window_invariant defaultLib (some rawDemo) demoNow "15m" 1 demoFrame hEq⟩

/-- C4: the staleness bounds are 15 min, 1 h, 4 h and 24 h in milliseconds,
and for a sufficiently long series the fetch reports stale data exactly when
the acquisition time exceeds the last candle's timestamp by strictly more
than the timeframe's bound (age equal to the bound is accepted). -/
theorem staleness_boundary (lib : IndicatorLib) (raw : List RawCandle) (now : ℤ)
    (tf : String) (limit : ℕ) (d : ℤ) (hne : raw.isEmpty = false)
    (hlen : ¬ raw.length < limit) (hmd : maxDelay tf = some d) :
    (maxDelay "15m" = some 900000 ∧ maxDelay "1h" = some 3600000 ∧
      maxDelay "4h" = some 14400000 ∧ maxDelay "1d" = some 86400000) ∧
    (fetch_market_data lib (some raw) now tf limit = Except.error FetchErr.staleData ↔
      now - lastTs raw > d) := by
  refine ⟨by decide, ?_⟩
  have hg : (raw.isEmpty || decide (raw.length < limit)) = false := by
    simp [hne, hlen]
  simp only [fetch_market_data, hg, hmd]
  by_cases hst : now - lastTs raw > d
  · simp [hst]
  · simp [hst, computeStage_ne_staleData lib raw tf limit]

/-- C4 witness: a one-candle series at the 15m boundary: age exactly 15 min
is not rejected as stale, age 15 min + 1 ms is. -/
theorem staleness_boundary_witness :
    (rawDemo1.isEmpty = false ∧ ¬ rawDemo1.length < 1 ∧ maxDelay "15m" = some 900000) ∧
      fetch_market_data defaultLib (some rawDemo1) 900000 "15m" 1 ≠
        Except.error FetchErr.staleData ∧
      fetch_market_data defaultLib (some rawDemo1) 900001 "15m" 1 =
        Except.error FetchErr.staleData := by
  refine ⟨⟨rfl, by decide, by decide⟩, ?_, ?_⟩
  · intro h
    have hgt := (staleness_boundary defaultLib rawDemo1 900000 "15m" 1 900000 rfl
      (by decide) (by decide)).2.mp h
    exact absurd hgt (by decide)
  · exact (staleness_boundary defaultLib rawDemo1 900001 "15m" 1 900000 rfl
      (by decide) (by decide)).2.mpr (by decide)

/-- C5: when the series is fresh and numerically valid, the required columns
exist, and exactly `w` rows of the enriched frame are incomplete (the
indicator warm-up), the fetch reports insufficient data iff the raw series is
shorter than `limit + w`; a raw series at least that long is never rejected
for insufficiency. -/
theorem insufficiency_iff (lib : IndicatorLib) (raw : List RawCandle) (now : ℤ)
    (tf : String) (limit : ℕ) (d : ℤ) (w : ℕ) (hlim : 1 ≤ limit)
    (hmd : maxDelay tf = some d) (hfresh : ¬ now - lastTs raw > d)
    (hvalid : allNumeric raw = true)
    (hreq : (enrich lib raw tf).all (requiredPresent tf) = true)
    (hw : ((enrich lib raw tf).filter rowComplete).length + w = raw.length) :
    (fetch_market_data lib (some raw) now tf limit = Except.error FetchErr.insufficientData ↔
      raw.length < limit + w) := by
  simp only [fetch_market_data, hmd]
  by_cases hg : (raw.isEmpty || decide (raw.length < limit)) = true
  · rw [if_pos hg]
    simp only [true_iff, iff_true]
    rw [Bool.or_eq_true] at hg
    rcases hg with hemp | hshort
    · have h0 : raw.length = 0 := by
        simpa [List.isEmpty_iff_length_eq_zero] using hemp
      omega
    · have hs := of_decide_eq_true hshort
      omega
  · have hg' : (raw.isEmpty || decide (raw.length < limit)) = false := by
      simpa using hg
    rw [if_neg (by simp [hg'])]
    rw [if_neg (by simpa using hfresh)]
    rw [computeStage_insufficient_iff lib raw tf limit hvalid hreq]
    have hshort : ¬ raw.length < limit := by
      intro hcon
      simp [hcon] at hg'
    omega

/-- C5 witness: the 34-row demo series on 15m with warm-up 33 and window 1:
34 is not below 1 + 33, and the fetch indeed does not report insufficiency. -/
theorem insufficiency_iff_witness :
    (1 ≤ 1 ∧ maxDelay "15m" = some 900000 ∧ ¬ demoNow - lastTs rawDemo > 900000 ∧
      allNumeric rawDemo = true ∧
      (enrich defaultLib rawDemo "15m").all (requiredPresent "15m") = true ∧
      ((enrich defaultLib rawDemo "15m").filter rowComplete).length + 33 = rawDemo.length) ∧
      (fetch_market_data defaultLib (some rawDemo) demoNow "15m" 1 =
          Except.error FetchErr.insufficientData ↔ rawDemo.length < 1 + 33) := by
  have hfresh : ¬ demoNow - lastTs rawDemo > 900000 := by with_unfolding_all decide
  have hvalid : allNumeric rawDemo = true := by with_unfolding_all decide
  have hreq : (enrich defaultLib rawDemo "15m").all (requiredPresent "15m") = true := by
    with_unfolding_all decide
  have hw : ((enrich defaultLib rawDemo "15m").filter rowComplete).length + 33 =
      rawDemo.length := by
    with_unfolding_all decide
  exact ⟨⟨le_refl 1, by decide, hfresh, hvalid, hreq, hw⟩,
    insufficiency_iff defaultLib rawDemo demoNow "15m" 1 900000 33 (le_refl 1)
      (by decide) hfresh hvalid hreq hw⟩

/-- C9 counterexample: a series whose timestamps are all identical (maximally
duplicated and non-ascending) passes validation and indicator computation:
the fetch returns a frame, it does not fail with the invalid-value error. -/
theorem timestamp_order_unchecked :
    tsStrictAsc rawDup = false ∧
      fetch_market_data defaultLib (some rawDup) 0 "15m" 1 ≠
        Except.error FetchErr.invalidValue ∧
      (fetch_market_data defaultLib (some rawDup) 0 "15m" 1).isOk = true := by
  with_unfolding_all decide

/-- C9 (amended): the source validates no timestamp ordering or duplication
at all; a series violating strict timestamp ascension but passing the length,
staleness and numeric checks, with enough complete rows, is accepted and
handed to indicator computation like any other. -/
theorem unordered_series_accepted (lib : IndicatorLib) (raw : List RawCandle)
    (now : ℤ) (tf : String) (limit : ℕ) (d : ℤ)
    (_hdup : tsStrictAsc raw = false) (hne : raw.isEmpty = false)
    (hlen : ¬ raw.length < limit) (hmd : maxDelay tf = some d)
    (hfresh : ¬ now - lastTs raw > d) (hvalid : allNumeric raw = true)
    (hreq : (enrich lib raw tf).all (requiredPresent tf) = true)
    (hkept : ¬ ((enrich lib raw tf).filter rowComplete).length < limit) :
    (fetch_market_data lib (some raw) now tf limit).isOk = true := by
  have hg : (raw.isEmpty || decide (raw.length < limit)) = false := by
    simp [hne, hlen]
  simp only [fetch_market_data, hg, hmd]
  rw [if_neg (by simp [hg])]
  rw [if_neg (by simpa using hfresh)]
  exact computeStage_isOk lib raw tf limit hvalid hreq hkept

/-- C9 witness: the duplicated-timestamp demo series satisfies every other
gate and is accepted. -/
theorem unordered_series_accepted_witness :
    (tsStrictAsc rawDup = false ∧ rawDup.isEmpty = false ∧ ¬ rawDup.length < 1 ∧
      maxDelay "15m" = some 900000 ∧ ¬ (0 : ℤ) - lastTs rawDup > 900000 ∧
      allNumeric rawDup = true ∧
      (enrich defaultLib rawDup "15m").all (requiredPresent "15m") = true ∧
      ¬ ((enrich defaultLib rawDup "15m").filter rowComplete).length < 1) ∧
      (fetch_market_data defaultLib (some rawDup) 0 "15m" 1).isOk = true := by
  have hdup : tsStrictAsc rawDup = false := by with_unfolding_all decide
  have hne : rawDup.isEmpty = false := by with_unfolding_all decide
  have hlen : ¬ rawDup.length < 1 := by with_unfolding_all decide
  have hfresh : ¬ (0 : ℤ) - lastTs rawDup > 900000 := by with_unfolding_all decide
  have hvalid : allNumeric rawDup = true := by with_unfolding_all decide
  have hreq : (enrich defaultLib rawDup "15m").all (requiredPresent "15m") = true := by
    with_unfolding_all decide
  have hkept : ¬ ((enrich defaultLib rawDup "15m").filter rowComplete).length < 1 := by
    with_unfolding_all decide
  exact ⟨⟨hdup, hne, hlen, by decide, hfresh, hvalid, hreq, hkept⟩,
    unordered_series_accepted defaultLib rawDup 0 "15m" 1 900000 hdup hne hlen
      (by decide) hfresh hvalid hreq hkept⟩

end CryptoScreen
